import Mathlib

/-! # cachet-sdk: component groups, metric groups, metrics

A shallow embedding of `component_groups.go`, `metric_groups.go` and
`metrics.go`.  Go `int` is `Int`, a Go pointer `*T` is `Option T`, a Go
`error` is `Option Err`, and a struct value is a Lean structure whose fields
default to the Go zero value.  The transport method `Client.Call`, the helper
`addOptions` and the types `Response`, `Meta`, `Component`, `QueryOptions`
are declared in other files of the package: they are parameters here.
-/

namespace Cachet

/-! ## Go values and struct tags -/

/-- A Go value as the reflection-based encoders (`encoding/json`,
`go-querystring`) see it. -/
inductive Value where
  | null
  | int (n : Int)
  | str (s : String)
  | bool (b : Bool)
  | arr (xs : List Value)
  | obj (members : List (String × Value))

/-- The `omitempty` test of the encoders: false, 0, a nil pointer, and any
empty slice or string are empty. -/
def Value.isEmptyValue : Value → Bool
  | .null => true
  | .int n => n == 0
  | .str s => s == ""
  | .bool b => !b
  | .arr xs => xs.isEmpty
  | .obj _ => false

/-- One struct field together with its tag: the Go field name, the key of the
tag, whether the tag carries `omitempty`, and the field's value. -/
structure Field where
  name : String
  key : String
  omitempty : Bool
  value : Value

/-- The members an encoder emits for a struct: every field in declaration
order, except the `omitempty` ones that hold an empty value. -/
def marshalFields (fs : List Field) : List (String × Value) :=
  fs.filterMap fun f =>
    if f.omitempty && f.value.isEmptyValue then none else some (f.key, f.value)

/-- The keys of an encoded struct. -/
def keysOf (obj : List (String × Value)) : List String :=
  obj.map Prod.fst

/-- The verb `%d` of `fmt.Sprintf` on an `int`: decimal digits, with a
leading minus sign for a negative number. -/
def fmtD : Int → String
  | .ofNat n => Nat.repr n
  | .negSucc n => "-" ++ Nat.repr (n + 1)

/-- The number a string of decimal digits denotes. -/
def decimalValue (cs : List Char) : Nat :=
  cs.foldl (fun a c => 10 * a + (c.toNat - 48)) 0

/-- The Go names of a list of struct fields. -/
def fieldNames (fs : List Field) : List String :=
  fs.map Field.name

/-- The value `go-querystring` writes for a scalar field. -/
def Value.urlString : Value → String
  | .int n => fmtD n
  | .str s => s
  | .bool true => "true"
  | .bool false => "false"
  | _ => ""

/-! ## Declarations of the package that live in other files -/

/-- The types and encoders that the three files use and do not declare. -/
structure Deps where
  /-- `Response`, the transport metadata returned by `Call`. -/
  Response : Type
  /-- The dynamic values of Go's `error`. -/
  Err : Type
  /-- `Meta`, the pagination block of a list envelope. -/
  Meta : Type
  /-- The zero value of `Meta`. -/
  metaZero : Meta
  /-- `Component`, the element type of the derived views of a group. -/
  Component : Type
  /-- The JSON encoding of a `Component`. -/
  componentJSON : Component → Value
  /-- `QueryOptions`, the shared pagination and sorting options. -/
  QueryOptions : Type
  /-- The query parameters `go-querystring` derives from a `QueryOptions`. -/
  queryOptionsValues : QueryOptions → List (String × String)

/-! ## component_groups.go -/

/-- ComponentGroupVisibilityPublic means "Viewable by public" -/
def ComponentGroupVisibilityPublic : Int := 1
/-- ComponentGroupVisibilityLoggedIn means "Only visible to logged in users" -/
def ComponentGroupVisibilityLoggedIn : Int := 0

/-- ComponentGroup entity reflects one single component group -/
structure ComponentGroup (E : Deps) where
  ID : Int := 0
  Name : String := ""
  Order : Int := 0
  Collapsed : Int := 0
  Visible : Int := 0
  CreatedAt : String := ""
  UpdatedAt : String := ""
  EnabledComponents : List E.Component := []
  EnabledComponentsLowest : List E.Component := []
  LowestHumanStatus : String := ""

/-- The `json` tags of `ComponentGroup`. -/
def ComponentGroup.fields {E : Deps} (g : ComponentGroup E) : List Field :=
  [ ⟨"ID", "id", true, .int g.ID⟩,
    ⟨"Name", "name", true, .str g.Name⟩,
    ⟨"Order", "order", true, .int g.Order⟩,
    ⟨"Collapsed", "collapsed", false, .int g.Collapsed⟩,
    ⟨"Visible", "visible", true, .int g.Visible⟩,
    ⟨"CreatedAt", "created_at", true, .str g.CreatedAt⟩,
    ⟨"UpdatedAt", "updated_at", true, .str g.UpdatedAt⟩,
    ⟨"EnabledComponents", "enabled_components", true,
      .arr (g.EnabledComponents.map E.componentJSON)⟩,
    ⟨"EnabledComponentsLowest", "enabled_components_lowest", true,
      .arr (g.EnabledComponentsLowest.map E.componentJSON)⟩,
    ⟨"LowestHumanStatus", "lowest_human_status", true, .str g.LowestHumanStatus⟩ ]

/-- ComponentGroupResponse reflects the response of /components/groups call -/
structure ComponentGroupResponse (E : Deps) where
  Meta : E.Meta := E.metaZero
  ComponentGroups : List (ComponentGroup E) := []

/-- ComponentGroupsQueryParams contains fields to filter returned results -/
structure ComponentGroupsQueryParams (E : Deps) where
  ID : Int := 0
  Name : String := ""
  Order : Int := 0
  Collapsed : Bool := false
  Visible : Int := 0
  QueryOptions : E.QueryOptions

/-- The `url` tags of the fields `ComponentGroupsQueryParams` declares
itself (the embedded `QueryOptions` apart). -/
def ComponentGroupsQueryParams.fields {E : Deps}
    (f : ComponentGroupsQueryParams E) : List Field :=
  [ ⟨"ID", "id", true, .int f.ID⟩,
    ⟨"Name", "name", true, .str f.Name⟩,
    ⟨"Order", "order", true, .int f.Order⟩,
    ⟨"Collapsed", "collapsed", true, .bool f.Collapsed⟩,
    ⟨"Visible", "visible", true, .int f.Visible⟩ ]

/-- Internal type hiding the "data" nested level of the API. -/
structure componentGroupAPIResponse (E : Deps) where
  Data : Option (ComponentGroup E) := none

/-! ## metric_groups.go -/

/-- MetricGroupVisibilityPublic means "Viewable by public" -/
def MetricGroupVisibilityPublic : Int := 1
/-- MetricGroupVisibilityLoggedIn means "Only visible to logged in users" -/
def MetricGroupVisibilityLoggedIn : Int := 0

/-- MetricGroup entity reflects one single metric group -/
structure MetricGroup where
  ID : Int := 0
  Name : String := ""
  Order : Int := 0
  Visible : Int := 0
  CreatedAt : String := ""
  UpdatedAt : String := ""

/-- The `json` tags of `MetricGroup`. -/
def MetricGroup.fields (g : MetricGroup) : List Field :=
  [ ⟨"ID", "id", true, .int g.ID⟩,
    ⟨"Name", "name", true, .str g.Name⟩,
    ⟨"Order", "order", true, .int g.Order⟩,
    ⟨"Visible", "visible", true, .int g.Visible⟩,
    ⟨"CreatedAt", "created_at", true, .str g.CreatedAt⟩,
    ⟨"UpdatedAt", "updated_at", true, .str g.UpdatedAt⟩ ]

/-- MetricGroupResponse reflects the response of /metrics/groups call -/
structure MetricGroupResponse (E : Deps) where
  Meta : E.Meta := E.metaZero
  MetricGroups : List MetricGroup := []

/-- MetricGroupsQueryParams contains fields to filter returned results -/
structure MetricGroupsQueryParams (E : Deps) where
  ID : Int := 0
  Name : String := ""
  Order : Int := 0
  Collapsed : Bool := false
  Visible : Int := 0
  QueryOptions : E.QueryOptions

/-- The `url` tags of the fields `MetricGroupsQueryParams` declares itself
(the embedded `QueryOptions` apart). -/
def MetricGroupsQueryParams.fields {E : Deps}
    (f : MetricGroupsQueryParams E) : List Field :=
  [ ⟨"ID", "id", true, .int f.ID⟩,
    ⟨"Name", "name", true, .str f.Name⟩,
    ⟨"Order", "order", true, .int f.Order⟩,
    ⟨"Collapsed", "collapsed", true, .bool f.Collapsed⟩,
    ⟨"Visible", "visible", true, .int f.Visible⟩ ]

/-- Internal type hiding the "data" nested level of the API. -/
structure metricGroupAPIResponse where
  Data : Option MetricGroup := none

/-! ## metrics.go -/

/-- MetricsViewLastHour means "Default view: Last Hour" -/
def MetricsViewLastHour : Int := 0
/-- MetricsCalculationSum means "Calculation of Metrics: Sum" -/
def MetricsCalculationSum : Int := 0
/-- MetricsVisibilityLoggedIn means "Visibility: Visible to authenticated users" -/
def MetricsVisibilityLoggedIn : Int := 0
/-- MetricsVisibilityPublic means "Visibility: Visible to everybody" -/
def MetricsVisibilityPublic : Int := 1
/-- MetricsVisibilityHidden means "Visibility: Always hidden" -/
def MetricsVisibilityHidden : Int := 2

/-- Metric entity reflects one single metric -/
structure Metric where
  ID : Int := 0
  Name : String := ""
  Suffix : String := ""
  Description : String := ""
  DefaultValue : Int := 0
  CalcType : Int := 0
  DisplayChart : Bool := false
  Places : Int := 0
  DefaultView : Int := 0
  Threshold : Int := 0
  Order : Int := 0
  Visible : Int := 0
  CreatedAt : String := ""
  UpdatedAt : String := ""
  DefaultViewName : String := ""
  GroupID : Int := 0

/-- The `json` tags of `Metric`. -/
def Metric.fields (m : Metric) : List Field :=
  [ ⟨"ID", "id", true, .int m.ID⟩,
    ⟨"Name", "name", true, .str m.Name⟩,
    ⟨"Suffix", "suffix", true, .str m.Suffix⟩,
    ⟨"Description", "description", true, .str m.Description⟩,
    ⟨"DefaultValue", "default_value", false, .int m.DefaultValue⟩,
    ⟨"CalcType", "calc_type", false, .int m.CalcType⟩,
    ⟨"DisplayChart", "display_chart", false, .bool m.DisplayChart⟩,
    ⟨"Places", "places", true, .int m.Places⟩,
    ⟨"DefaultView", "default_view", false, .int m.DefaultView⟩,
    ⟨"Threshold", "threshold", true, .int m.Threshold⟩,
    ⟨"Order", "order", true, .int m.Order⟩,
    ⟨"Visible", "visible", false, .int m.Visible⟩,
    ⟨"CreatedAt", "created_at", true, .str m.CreatedAt⟩,
    ⟨"UpdatedAt", "updated_at", true, .str m.UpdatedAt⟩,
    ⟨"DefaultViewName", "default_view_name", true, .str m.DefaultViewName⟩,
    ⟨"GroupID", "group_id", true, .int m.GroupID⟩ ]

/-- Point is a single point in a Metric -/
structure Point where
  ID : Int := 0
  MetricID : Int := 0
  Value : Int := 0
  CreatedAt : String := ""
  UpdatedAt : String := ""
  Counter : Int := 0
  CalculatedValue : Int := 0

/-- MetricResponse reflects the response of /metric call -/
structure MetricResponse (E : Deps) where
  Meta : E.Meta := E.metaZero
  Metrics : List Metric := []

/-- MetricQueryParams contains fields to filter returned results -/
structure MetricQueryParams (E : Deps) where
  QueryOptions : E.QueryOptions

/-- The `url` tags of the fields `MetricQueryParams` declares itself (the
embedded `QueryOptions` apart): there are none. -/
def MetricQueryParams.fields {E : Deps} (_f : MetricQueryParams E) : List Field :=
  []

/-- Internal type hiding the "data" nested level of the API. -/
structure metricAPIResponse where
  Data : Option Metric := none

/-- Internal type hiding the "data" nested level of the API. -/
structure metricPointsAPIResponse where
  Data : Option (List Point) := none

/-- Internal type hiding the "data" nested level of the API. -/
structure metricPointAPIResponse where
  Data : Option Point := none

/-- The anonymous struct `AddPoint` builds as its payload. -/
structure PointPayload where
  Value : Int
  Timestamp : String

/-- The `json` tags of the payload of `AddPoint`. -/
def PointPayload.fields (p : PointPayload) : List Field :=
  [ ⟨"Value", "value", false, .int p.Value⟩,
    ⟨"Timestamp", "timestamp", false, .str p.Timestamp⟩ ]

/-! ## The transport collaborator -/

/-- The dynamic values of the `body interface{}` argument of `Call`: a
pointer to an entity (possibly a nil pointer) or the payload of `AddPoint`. -/
inductive Body (E : Deps) where
  | componentGroup (c : Option (ComponentGroup E))
  | metricGroup (c : Option MetricGroup)
  | metric (m : Option Metric)
  | pointPayload (p : PointPayload)

/-- The JSON request body `encoding/json` builds from a body argument. -/
def Body.toJSON {E : Deps} : Body E → Value
  | .componentGroup none => .null
  | .componentGroup (some g) => .obj (marshalFields g.fields)
  | .metricGroup none => .null
  | .metricGroup (some g) => .obj (marshalFields g.fields)
  | .metric none => .null
  | .metric (some m) => .obj (marshalFields m.fields)
  | .pointPayload p => .obj (marshalFields p.fields)

/-- The dynamic values of the `opt interface{}` argument of `addOptions`: a
pointer to one of the three filter structures, possibly nil. -/
inductive Opt (E : Deps) where
  | componentGroups (f : Option (ComponentGroupsQueryParams E))
  | metricGroups (f : Option (MetricGroupsQueryParams E))
  | metrics (f : Option (MetricQueryParams E))

/-- The signature of `addOptions(s string, opt interface{}) (string, error)`. -/
abbrev AddOptions (E : Deps) : Type :=
  String → Opt E → String × Option E.Err

/-- The types of the destination holders handed to `Call`. -/
inductive HolderKind where
  | componentGroupResponse
  | componentGroupAPIResponse
  | metricGroupResponse
  | metricGroupAPIResponse
  | metricResponse
  | metricAPIResponse
  | metricPointsAPIResponse
  | metricPointAPIResponse
  deriving DecidableEq

/-- What the `v interface{}` argument of `Call` points to: nothing for a nil
`v`, otherwise a holder of the given type. -/
@[reducible] def Holder (E : Deps) : Option HolderKind → Type
  | none => Unit
  | some .componentGroupResponse => ComponentGroupResponse E
  | some .componentGroupAPIResponse => componentGroupAPIResponse E
  | some .metricGroupResponse => MetricGroupResponse E
  | some .metricGroupAPIResponse => metricGroupAPIResponse
  | some .metricResponse => MetricResponse E
  | some .metricAPIResponse => metricAPIResponse
  | some .metricPointsAPIResponse => metricPointsAPIResponse
  | some .metricPointAPIResponse => metricPointAPIResponse

/-- The client: its method `Call(method, u, body, v)` returns the response
metadata and an error, and may write into what `v` points to; the first
component of the result is the holder as `Call` leaves it. -/
structure Client (E : Deps) where
  Call : String → String → Option (Body E) → (k : Option HolderKind) → Holder E k →
    Holder E k × Option E.Response × Option E.Err

/-- One invocation of `Call`: verb, path, body and the type of the
destination holder (`none` for a nil holder). -/
structure Request (E : Deps) where
  method : String
  path : String
  body : Option (Body E)
  dest : Option HolderKind

/-- A computation together with the invocations of `Call` it made, in order. -/
structure Traced (E : Deps) (α : Type) where
  val : α
  calls : List (Request E)

instance (E : Deps) : Monad (Traced E) where
  pure a := ⟨a, []⟩
  bind x f := ⟨(f x.val).val, x.calls ++ (f x.val).calls⟩

/-- Invoke `Call` and record the invocation. -/
def Client.call {E : Deps} (c : Client E) (method path : String)
    (body : Option (Body E)) (k : Option HolderKind) (v : Holder E k) :
    Traced E (Holder E k × Option E.Response × Option E.Err) :=
  ⟨c.Call method path body k v, [⟨method, path, body, k⟩]⟩

/-! ## ComponentGroupsService -/

/-- ComponentGroupsService contains REST endpoints that belongs to cachet components. -/
structure ComponentGroupsService (E : Deps) where
  client : Client E

/-- GetAll return all component groups that have been created. -/
def ComponentGroupsService.GetAll {E : Deps} (addOptions : AddOptions E)
    (s : ComponentGroupsService E) (filter : Option (ComponentGroupsQueryParams E)) :
    Traced E (Option (ComponentGroupResponse E) × Option E.Response × Option E.Err) := do
  let u := "api/v1/components/groups"
  let v : ComponentGroupResponse E := {}
  let (u, err) := addOptions u (.componentGroups filter)
  match err with
  | some e => return (none, none, some e)
  | none =>
    let (v, resp, err) ← s.client.call "GET" u none (some .componentGroupResponse) v
    return (some v, resp, err)

/-- Get return a single component group. -/
def ComponentGroupsService.Get {E : Deps} (s : ComponentGroupsService E) (id : Int) :
    Traced E (Option (ComponentGroup E) × Option E.Response × Option E.Err) := do
  let u := "api/v1/components/groups/" ++ fmtD id
  let v : componentGroupAPIResponse E := {}
  let (v, resp, err) ← s.client.call "GET" u none (some .componentGroupAPIResponse) v
  return (v.Data, resp, err)

/-- Create creates a new component group. -/
def ComponentGroupsService.Create {E : Deps} (s : ComponentGroupsService E)
    (c : Option (ComponentGroup E)) :
    Traced E (Option (ComponentGroup E) × Option E.Response × Option E.Err) := do
  let u := "api/v1/components/groups"
  let v : componentGroupAPIResponse E := {}
  let (v, resp, err) ←
    s.client.call "POST" u (some (.componentGroup c)) (some .componentGroupAPIResponse) v
  return (v.Data, resp, err)

/-- Update updates a component group. -/
def ComponentGroupsService.Update {E : Deps} (s : ComponentGroupsService E) (id : Int)
    (c : Option (ComponentGroup E)) :
    Traced E (Option (ComponentGroup E) × Option E.Response × Option E.Err) := do
  let u := "api/v1/components/groups/" ++ fmtD id
  let v : componentGroupAPIResponse E := {}
  let (v, resp, err) ←
    s.client.call "PUT" u (some (.componentGroup c)) (some .componentGroupAPIResponse) v
  return (v.Data, resp, err)

/-- Delete deletes a component group. -/
def ComponentGroupsService.Delete {E : Deps} (s : ComponentGroupsService E) (id : Int) :
    Traced E (Option E.Response × Option E.Err) := do
  let u := "api/v1/components/groups/" ++ fmtD id
  let (_, resp, err) ← s.client.call "DELETE" u none none ()
  return (resp, err)

/-! ## MetricGroupsService -/

/-- MetricGroupsService contains REST endpoints that belongs to cachet metric groups. -/
structure MetricGroupsService (E : Deps) where
  client : Client E

/-- GetAll return all metric groups that have been created. -/
def MetricGroupsService.GetAll {E : Deps} (addOptions : AddOptions E)
    (s : MetricGroupsService E) (filter : Option (MetricGroupsQueryParams E)) :
    Traced E (Option (MetricGroupResponse E) × Option E.Response × Option E.Err) := do
  let u := "api/v1/metrics/groups"
  let v : MetricGroupResponse E := {}
  let (u, err) := addOptions u (.metricGroups filter)
  match err with
  | some e => return (none, none, some e)
  | none =>
    let (v, resp, err) ← s.client.call "GET" u none (some .metricGroupResponse) v
    return (some v, resp, err)

/-- Get return a single metric group. -/
def MetricGroupsService.Get {E : Deps} (s : MetricGroupsService E) (id : Int) :
    Traced E (Option MetricGroup × Option E.Response × Option E.Err) := do
  let u := "api/v1/metrics/groups/" ++ fmtD id
  let v : metricGroupAPIResponse := {}
  let (v, resp, err) ← s.client.call "GET" u none (some .metricGroupAPIResponse) v
  return (v.Data, resp, err)

/-- Create creates a new metric group. -/
def MetricGroupsService.Create {E : Deps} (s : MetricGroupsService E)
    (c : Option MetricGroup) :
    Traced E (Option MetricGroup × Option E.Response × Option E.Err) := do
  let u := "api/v1/metrics/groups"
  let v : metricGroupAPIResponse := {}
  let (v, resp, err) ←
    s.client.call "POST" u (some (.metricGroup c)) (some .metricGroupAPIResponse) v
  return (v.Data, resp, err)

/-- Update updates a metric group. -/
def MetricGroupsService.Update {E : Deps} (s : MetricGroupsService E) (id : Int)
    (c : Option MetricGroup) :
    Traced E (Option MetricGroup × Option E.Response × Option E.Err) := do
  let u := "api/v1/metrics/groups/" ++ fmtD id
  let v : metricGroupAPIResponse := {}
  let (v, resp, err) ←
    s.client.call "PUT" u (some (.metricGroup c)) (some .metricGroupAPIResponse) v
  return (v.Data, resp, err)

/-- Delete deletes a metric group. -/
def MetricGroupsService.Delete {E : Deps} (s : MetricGroupsService E) (id : Int) :
    Traced E (Option E.Response × Option E.Err) := do
  let u := "api/v1/metrics/groups/" ++ fmtD id
  let (_, resp, err) ← s.client.call "DELETE" u none none ()
  return (resp, err)

/-! ## MetricsService -/

/-- MetricsService contains REST endpoints that belongs to cachet metrics. -/
structure MetricsService (E : Deps) where
  client : Client E

/-- GetAll returns all metrics that have been setup. -/
def MetricsService.GetAll {E : Deps} (addOptions : AddOptions E)
    (s : MetricsService E) (filter : Option (MetricQueryParams E)) :
    Traced E (Option (MetricResponse E) × Option E.Response × Option E.Err) := do
  let u := "api/v1/metrics"
  let v : MetricResponse E := {}
  let (u, err) := addOptions u (.metrics filter)
  match err with
  | some e => return (none, none, some e)
  | none =>
    let (v, resp, err) ← s.client.call "GET" u none (some .metricResponse) v
    return (some v, resp, err)

/-- Get returns a single metric, without points. -/
def MetricsService.Get {E : Deps} (s : MetricsService E) (id : Int) :
    Traced E (Option Metric × Option E.Response × Option E.Err) := do
  let u := "api/v1/metrics/" ++ fmtD id
  let v : metricAPIResponse := {}
  let (v, resp, err) ← s.client.call "GET" u none (some .metricAPIResponse) v
  return (v.Data, resp, err)

/-- Create a new metric. -/
def MetricsService.Create {E : Deps} (s : MetricsService E) (m : Option Metric) :
    Traced E (Option Metric × Option E.Response × Option E.Err) := do
  let u := "api/v1/metrics"
  let v : metricAPIResponse := {}
  let (v, resp, err) ← s.client.call "POST" u (some (.metric m)) (some .metricAPIResponse) v
  return (v.Data, resp, err)

/-- Update a metric. -/
def MetricsService.Update {E : Deps} (s : MetricsService E) (id : Int)
    (m : Option Metric) :
    Traced E (Option Metric × Option E.Response × Option E.Err) := do
  let u := "api/v1/metrics/" ++ fmtD id
  let v : metricAPIResponse := {}
  let (v, resp, err) ← s.client.call "PUT" u (some (.metric m)) (some .metricAPIResponse) v
  return (v.Data, resp, err)

/-- Delete a metric. -/
def MetricsService.Delete {E : Deps} (s : MetricsService E) (id : Int) :
    Traced E (Option E.Response × Option E.Err) := do
  let u := "api/v1/metrics/" ++ fmtD id
  let (_, resp, err) ← s.client.call "DELETE" u none none ()
  return (resp, err)

/-- GetPoints return a list of metric points. -/
def MetricsService.GetPoints {E : Deps} (s : MetricsService E) (id : Int) :
    Traced E (Option (List Point) × Option E.Response × Option E.Err) := do
  let u := "api/v1/metrics/" ++ fmtD id ++ "/points"
  let v : metricPointsAPIResponse := {}
  let (v, resp, err) ← s.client.call "GET" u none (some .metricPointsAPIResponse) v
  return (v.Data, resp, err)

/-- AddPoint adds a metric point to a given metric. -/
def MetricsService.AddPoint {E : Deps} (s : MetricsService E) (id : Int) (value : Int)
    (timestamp : String) :
    Traced E (Option Point × Option E.Response × Option E.Err) := do
  let u := "api/v1/metrics/" ++ fmtD id ++ "/points"
  let v : metricPointAPIResponse := {}
  let p : PointPayload := { Value := value, Timestamp := timestamp }
  let (v, resp, err) ←
    s.client.call "POST" u (some (.pointPayload p)) (some .metricPointAPIResponse) v
  return (v.Data, resp, err)

/-- DeletePoint deletes a metric point. -/
def MetricsService.DeletePoint {E : Deps} (s : MetricsService E) (id pointID : Int) :
    Traced E (Option E.Response × Option E.Err) := do
  let u := "api/v1/metrics/" ++ fmtD id ++ "/points/" ++ fmtD pointID
  let (_, resp, err) ← s.client.call "DELETE" u none none ()
  return (resp, err)

/-! ## Query parameters of the filters -/

/-- The query parameters `go-querystring` derives from the tagged fields of a
filter: key and value of every field that is not empty. -/
def queryValues (fs : List Field) : List (String × String) :=
  (marshalFields fs).map fun kv => (kv.1, kv.2.urlString)

/-- The query parameters of a component-group filter: its own fields, then
those of the embedded `QueryOptions`. -/
def ComponentGroupsQueryParams.values {E : Deps} (f : ComponentGroupsQueryParams E) :
    List (String × String) :=
  queryValues f.fields ++ E.queryOptionsValues f.QueryOptions

/-- The query parameters of a metric-group filter. -/
def MetricGroupsQueryParams.values {E : Deps} (f : MetricGroupsQueryParams E) :
    List (String × String) :=
  queryValues f.fields ++ E.queryOptionsValues f.QueryOptions

/-- The query parameters of a metric filter. -/
def MetricQueryParams.values {E : Deps} (f : MetricQueryParams E) :
    List (String × String) :=
  queryValues f.fields ++ E.queryOptionsValues f.QueryOptions

/-- The Go types of the tagged fields. -/
inductive Kind where
  | null
  | int
  | str
  | bool
  | arr
  | obj
  deriving DecidableEq

/-- The type of a value. -/
def Value.kind : Value → Kind
  | .null => .null
  | .int _ => .int
  | .str _ => .str
  | .bool _ => .bool
  | .arr _ => .arr
  | .obj _ => .obj

/-- Go name, tag key and type of every field of a list of struct fields. -/
def fieldSigs (fs : List Field) : List (String × String × Kind) :=
  fs.map fun f => (f.name, f.key, f.value.kind)

/-- The query parameters of the dynamic value handed to `addOptions`: none
for a nil pointer. -/
def Opt.values {E : Deps} : Opt E → Option (List (String × String))
  | .componentGroups f => f.map ComponentGroupsQueryParams.values
  | .metricGroups f => f.map MetricGroupsQueryParams.values
  | .metrics f => f.map MetricQueryParams.values

/-- The upper-case hexadecimal digit of a number below sixteen. -/
def hexDigit (n : Nat) : Char :=
  if n < 10 then Char.ofNat (48 + n) else Char.ofNat (55 + n)

/-- A byte written as a percent sign and two hexadecimal digits. -/
def percentByte (b : Nat) : List Char :=
  ['%', hexDigit (b / 16), hexDigit (b % 16)]

/-- The bytes of the UTF-8 encoding of a character. -/
def utf8Bytes (c : Char) : List Nat :=
  let n := c.toNat
  if n < 128 then [n]
  else if n < 2048 then [192 + n / 64, 128 + n % 64]
  else if n < 65536 then [224 + n / 4096, 128 + n / 64 % 64, 128 + n % 64]
  else [240 + n / 262144, 128 + n / 4096 % 64, 128 + n / 64 % 64, 128 + n % 64]

/-- The percent-encoding of a list of bytes. -/
def percentBytes : List Nat → List Char
  | [] => []
  | b :: bs => percentByte b ++ percentBytes bs

/-- The standard URL query encoding of one character: letters, digits and
the marks - _ . ~ stand for themselves, a space becomes a plus sign, and any
other character becomes the percent-encoding of its UTF-8 bytes. -/
def escapeChar (c : Char) : List Char :=
  if c.isAlphanum || c == '-' || c == '_' || c == '.' || c == '~' then [c]
  else if c == ' ' then ['+']
  else percentBytes (utf8Bytes c)

/-- The standard URL query encoding of a list of characters. -/
def escapeChars : List Char → List Char
  | [] => []
  | c :: cs => escapeChar c ++ escapeChars cs

/-- The standard URL query encoding of a string. -/
def queryEscape (s : String) : String :=
  String.mk (escapeChars s.data)

/-- One query parameter, written key=value. -/
def encodePair (kv : String × String) : String :=
  queryEscape kv.1 ++ "=" ++ queryEscape kv.2

/-- The query string of a list of parameters: the parameters joined by an
ampersand. -/
def encodeQuery (vs : List (String × String)) : String :=
  "&".intercalate (vs.map encodePair)

/-- Modelled from the spec: `addOptions`, the query-string encoding helper,
is declared outside the three files.  By the spec it is nil-safe (a nil
filter means no filtering, the URL stays as it is), it serializes the
non-zero fields of the filter as query parameters in standard URL query
encoding, and zero-valued fields are not sent; a filter with no non-zero
field adds nothing to the URL.  On these filter structures it reports no
error. -/
def addOptionsModel (E : Deps) : AddOptions E :=
  fun s opt =>
    match opt.values with
    | none => (s, none)
    | some vs => if vs.isEmpty then (s, none) else (s ++ "?" ++ encodeQuery vs, none)

/-! ## Concrete collaborators -/

/-- A concrete choice of the external types: metadata is a status code, an
error is its message, a component is its name, and the query options are the
parameters they encode to. -/
@[reducible] def demoDeps : Deps where
  Response := Nat
  Err := String
  Meta := Nat
  metaZero := 0
  Component := String
  componentJSON := Value.str
  QueryOptions := List (String × String)
  queryOptionsValues := id

/-- A transport that fails without writing into the holder. -/
def failingClient : Client demoDeps where
  Call := fun _ _ _ _ v => (v, some 503, some "service unavailable")

/-- A transport that decodes a metric from the response body and still
reports an error. -/
def decodingFailingClient : Client demoDeps where
  Call := fun _ _ _ k v =>
    match k, v with
    | some .metricAPIResponse, _ => ({ Data := some { ID := 7 } }, some 500, some "server error")
    | _, v => (v, some 500, some "server error")

/-- A transport that decodes one entity into every single-entity holder. -/
def okClient : Client demoDeps where
  Call := fun _ _ _ k v =>
    match k, v with
    | some .componentGroupAPIResponse, _ => ({ Data := some { ID := 1 } }, some 200, none)
    | some .metricGroupAPIResponse, _ => ({ Data := some { ID := 2 } }, some 200, none)
    | some .metricAPIResponse, _ => ({ Data := some { ID := 3 } }, some 200, none)
    | some .metricPointsAPIResponse, _ => ({ Data := some [{ ID := 4 }] }, some 200, none)
    | some .metricPointAPIResponse, _ => ({ Data := some { ID := 5 } }, some 200, none)
    | _, v => (v, some 200, none)

/-- A query-string encoder that succeeds and leaves the URL as it is. -/
def plainOptions : AddOptions demoDeps :=
  fun u _ => (u, none)

/-- A query-string encoder that fails. -/
def brokenOptions : AddOptions demoDeps :=
  fun u _ => (u, some "unsupported filter")

/-! ## Theorems: the query-string gate of `GetAll` -/

/-- C2: in each of the three `GetAll`, an error of the query-string encoder
is returned at once as (nil, nil, that error) with no invocation of `Call`;
when the encoder succeeds, `Call` is invoked exactly once, with GET, the URL
the encoder returned, no body, and the list envelope as holder. -/
theorem getAll_encoder_gate (E : Deps) (addOptions : AddOptions E)
    (cg : ComponentGroupsService E) (mg : MetricGroupsService E) (ms : MetricsService E)
    (fcg : Option (ComponentGroupsQueryParams E))
    (fmg : Option (MetricGroupsQueryParams E)) (fms : Option (MetricQueryParams E)) :
    ((∀ e, (addOptions "api/v1/components/groups" (.componentGroups fcg)).2 = some e →
        cg.GetAll addOptions fcg = ⟨(none, none, some e), []⟩) ∧
      ((addOptions "api/v1/components/groups" (.componentGroups fcg)).2 = none →
        (cg.GetAll addOptions fcg).calls =
          [⟨"GET", (addOptions "api/v1/components/groups" (.componentGroups fcg)).1, none,
            some .componentGroupResponse⟩])) ∧
    ((∀ e, (addOptions "api/v1/metrics/groups" (.metricGroups fmg)).2 = some e →
        mg.GetAll addOptions fmg = ⟨(none, none, some e), []⟩) ∧
      ((addOptions "api/v1/metrics/groups" (.metricGroups fmg)).2 = none →
        (mg.GetAll addOptions fmg).calls =
          [⟨"GET", (addOptions "api/v1/metrics/groups" (.metricGroups fmg)).1, none,
            some .metricGroupResponse⟩])) ∧
    ((∀ e, (addOptions "api/v1/metrics" (.metrics fms)).2 = some e →
        ms.GetAll addOptions fms = ⟨(none, none, some e), []⟩) ∧
      ((addOptions "api/v1/metrics" (.metrics fms)).2 = none →
        (ms.GetAll addOptions fms).calls =
          [⟨"GET", (addOptions "api/v1/metrics" (.metrics fms)).1, none,
            some .metricResponse⟩])) := by
  refine ⟨⟨?_, ?_⟩, ⟨?_, ?_⟩, ⟨?_, ?_⟩⟩
  · intro e h
    unfold ComponentGroupsService.GetAll
    simp only []
    rw [h]
    rfl
  · intro h
    unfold ComponentGroupsService.GetAll
    simp only []
    rw [h]
    rfl
  · intro e h
    unfold MetricGroupsService.GetAll
    simp only []
    rw [h]
    rfl
  · intro h
    unfold MetricGroupsService.GetAll
    simp only []
    rw [h]
    rfl
  · intro e h
    unfold MetricsService.GetAll
    simp only []
    rw [h]
    rfl
  · intro h
    unfold MetricsService.GetAll
    simp only []
    rw [h]
    rfl

/-- Witness of C2: with a failing encoder the metrics `GetAll` returns the
encoder's error and makes no call; with a succeeding one the component-group
`GetAll` makes the single GET on the encoder's URL. -/
theorem getAll_encoder_gate_witness :
    (brokenOptions "api/v1/metrics" (.metrics none)).2 = some "unsupported filter" ∧
    (MetricsService.mk okClient).GetAll brokenOptions none =
      ⟨(none, none, some "unsupported filter"), []⟩ ∧
    (plainOptions "api/v1/components/groups" (.componentGroups none)).2 = none ∧
    ((ComponentGroupsService.mk okClient).GetAll plainOptions none).calls =
      [⟨"GET", "api/v1/components/groups", none, some .componentGroupResponse⟩] :=
  ⟨rfl,
   (getAll_encoder_gate demoDeps brokenOptions ⟨okClient⟩ ⟨okClient⟩ ⟨okClient⟩
      none none none).2.2.1 "unsupported filter" rfl,
   rfl,
   (getAll_encoder_gate demoDeps plainOptions ⟨okClient⟩ ⟨okClient⟩ ⟨okClient⟩
      none none none).1.2 rfl⟩

/-! ## Theorems: endpoint mapping -/

/-- C5: for each of the three resources, `Get`, `Update` and `Delete` invoke
`Call` exactly once with GET, PUT and DELETE on "api/v1/" ++ base ++ "/" ++
decimal id, and `Create` invokes it exactly once with POST on "api/v1/" ++
base; the body is the entity for `Create` and `Update` and absent for `Get`
and `Delete`, and `Delete` passes no destination holder. -/
theorem crud_endpoint_mapping (E : Deps)
    (cg : ComponentGroupsService E) (mg : MetricGroupsService E) (ms : MetricsService E)
    (id : Int) (c : Option (ComponentGroup E)) (g : Option MetricGroup) (m : Option Metric) :
    ((cg.Get id).calls =
        [⟨"GET", "api/v1/" ++ "components/groups" ++ "/" ++ fmtD id, none,
          some .componentGroupAPIResponse⟩] ∧
      (cg.Create c).calls =
        [⟨"POST", "api/v1/" ++ "components/groups", some (.componentGroup c),
          some .componentGroupAPIResponse⟩] ∧
      (cg.Update id c).calls =
        [⟨"PUT", "api/v1/" ++ "components/groups" ++ "/" ++ fmtD id, some (.componentGroup c),
          some .componentGroupAPIResponse⟩] ∧
      (cg.Delete id).calls =
        [⟨"DELETE", "api/v1/" ++ "components/groups" ++ "/" ++ fmtD id, none, none⟩]) ∧
    ((mg.Get id).calls =
        [⟨"GET", "api/v1/" ++ "metrics/groups" ++ "/" ++ fmtD id, none,
          some .metricGroupAPIResponse⟩] ∧
      (mg.Create g).calls =
        [⟨"POST", "api/v1/" ++ "metrics/groups", some (.metricGroup g),
          some .metricGroupAPIResponse⟩] ∧
      (mg.Update id g).calls =
        [⟨"PUT", "api/v1/" ++ "metrics/groups" ++ "/" ++ fmtD id, some (.metricGroup g),
          some .metricGroupAPIResponse⟩] ∧
      (mg.Delete id).calls =
        [⟨"DELETE", "api/v1/" ++ "metrics/groups" ++ "/" ++ fmtD id, none, none⟩]) ∧
    ((ms.Get id).calls =
        [⟨"GET", "api/v1/" ++ "metrics" ++ "/" ++ fmtD id, none, some .metricAPIResponse⟩] ∧
      (ms.Create m).calls =
        [⟨"POST", "api/v1/" ++ "metrics", some (.metric m), some .metricAPIResponse⟩] ∧
      (ms.Update id m).calls =
        [⟨"PUT", "api/v1/" ++ "metrics" ++ "/" ++ fmtD id, some (.metric m),
          some .metricAPIResponse⟩] ∧
      (ms.Delete id).calls =
        [⟨"DELETE", "api/v1/" ++ "metrics" ++ "/" ++ fmtD id, none, none⟩]) :=
  ⟨⟨rfl, rfl, rfl, rfl⟩, ⟨rfl, rfl, rfl, rfl⟩, ⟨rfl, rfl, rfl, rfl⟩⟩

/-- C6: `GetPoints` invokes `Call` exactly once with GET on
"api/v1/metrics/" ++ decimal id ++ "/points" and no body; `AddPoint` invokes
it exactly once with POST on the same path and a body whose JSON object has
exactly the members value and timestamp, in that order, whatever their
values; `DeletePoint` invokes it exactly once with DELETE on
"api/v1/metrics/" ++ decimal id ++ "/points/" ++ decimal pointID with no body
and no destination holder. -/
theorem points_endpoint_mapping (E : Deps) (ms : MetricsService E)
    (id pointID value : Int) (timestamp : String) :
    (ms.GetPoints id).calls =
      [⟨"GET", "api/v1/metrics/" ++ fmtD id ++ "/points", none,
        some .metricPointsAPIResponse⟩] ∧
    (∃ body : Body E,
      (ms.AddPoint id value timestamp).calls =
        [⟨"POST", "api/v1/metrics/" ++ fmtD id ++ "/points", some body,
          some .metricPointAPIResponse⟩] ∧
      body.toJSON = .obj [("value", .int value), ("timestamp", .str timestamp)]) ∧
    (ms.DeletePoint id pointID).calls =
      [⟨"DELETE", "api/v1/metrics/" ++ fmtD id ++ "/points/" ++ fmtD pointID, none, none⟩] :=
  ⟨rfl, ⟨.pointPayload ⟨value, timestamp⟩, rfl, rfl⟩, rfl⟩

/-! ## Theorems: what the operations return -/

/-- The result of an operation that unwraps the holder `Call` left. -/
theorem val_of_call {H R X A : Type} (r : H × R × X) (h : H) (resp : R) (err : X)
    (hc : r = (h, resp, err)) (f : H → A) :
    (f r.1, r.2.1, r.2.2) = (f h, resp, err) := by
  subst hc
  rfl

/-- The metadata and error of an operation that passes no holder. -/
theorem val_of_call_nil {H R X : Type} (r : H × R × X) (h : H) (resp : R) (err : X)
    (hc : r = (h, resp, err)) :
    (r.2.1, r.2.2) = (resp, err) := by
  subst hc
  rfl

/-- C7: every operation that reaches `Call` returns the metadata and the
error of `Call` unchanged.  `Get`, `Create`, `Update`, `GetPoints` and
`AddPoint` return the data field of the holder as `Call` left it (nil when
`Call` did not write it); `Delete` and `DeletePoint` return only metadata and
error; `GetAll`, when the encoder succeeds, returns the list envelope as
`Call` left it. -/
theorem call_outcome_verbatim (E : Deps) (addOptions : AddOptions E)
    (cg : ComponentGroupsService E) (mg : MetricGroupsService E) (ms : MetricsService E)
    (fcg : Option (ComponentGroupsQueryParams E))
    (fmg : Option (MetricGroupsQueryParams E)) (fms : Option (MetricQueryParams E))
    (id pointID value : Int) (timestamp : String)
    (c : Option (ComponentGroup E)) (g : Option MetricGroup) (m : Option Metric) :
    ((∀ h resp err, cg.client.Call "GET" ("api/v1/components/groups/" ++ fmtD id) none
        (some .componentGroupAPIResponse) {} = (h, resp, err) →
        (cg.Get id).val = (h.Data, resp, err)) ∧
      (∀ h resp err, cg.client.Call "POST" "api/v1/components/groups" (some (.componentGroup c))
          (some .componentGroupAPIResponse) {} = (h, resp, err) →
        (cg.Create c).val = (h.Data, resp, err)) ∧
      (∀ h resp err, cg.client.Call "PUT" ("api/v1/components/groups/" ++ fmtD id)
          (some (.componentGroup c))
          (some .componentGroupAPIResponse) {} = (h, resp, err) →
        (cg.Update id c).val = (h.Data, resp, err)) ∧
      (∀ h resp err, mg.client.Call "GET" ("api/v1/metrics/groups/" ++ fmtD id) none
          (some .metricGroupAPIResponse) {} = (h, resp, err) →
        (mg.Get id).val = (h.Data, resp, err)) ∧
      (∀ h resp err, mg.client.Call "POST" "api/v1/metrics/groups" (some (.metricGroup g))
          (some .metricGroupAPIResponse) {} = (h, resp, err) →
        (mg.Create g).val = (h.Data, resp, err)) ∧
      (∀ h resp err, mg.client.Call "PUT" ("api/v1/metrics/groups/" ++ fmtD id)
          (some (.metricGroup g))
          (some .metricGroupAPIResponse) {} = (h, resp, err) →
        (mg.Update id g).val = (h.Data, resp, err)) ∧
      (∀ h resp err, ms.client.Call "GET" ("api/v1/metrics/" ++ fmtD id) none
          (some .metricAPIResponse) {} = (h, resp, err) →
        (ms.Get id).val = (h.Data, resp, err)) ∧
      (∀ h resp err, ms.client.Call "POST" "api/v1/metrics" (some (.metric m))
          (some .metricAPIResponse) {} = (h, resp, err) →
        (ms.Create m).val = (h.Data, resp, err)) ∧
      (∀ h resp err, ms.client.Call "PUT" ("api/v1/metrics/" ++ fmtD id) (some (.metric m))
          (some .metricAPIResponse) {} = (h, resp, err) →
        (ms.Update id m).val = (h.Data, resp, err)) ∧
      (∀ h resp err, ms.client.Call "GET" ("api/v1/metrics/" ++ fmtD id ++ "/points") none
          (some .metricPointsAPIResponse) {} = (h, resp, err) →
        (ms.GetPoints id).val = (h.Data, resp, err)) ∧
      (∀ h resp err, ms.client.Call "POST" ("api/v1/metrics/" ++ fmtD id ++ "/points")
          (some (.pointPayload ⟨value, timestamp⟩))
          (some .metricPointAPIResponse) {} = (h, resp, err) →
        (ms.AddPoint id value timestamp).val = (h.Data, resp, err))) ∧
    ((∀ h resp err, cg.client.Call "DELETE" ("api/v1/components/groups/" ++ fmtD id)
        none none () = (h, resp, err) →
        (cg.Delete id).val = (resp, err)) ∧
      (∀ h resp err, mg.client.Call "DELETE" ("api/v1/metrics/groups/" ++ fmtD id)
          none none () = (h, resp, err) →
        (mg.Delete id).val = (resp, err)) ∧
      (∀ h resp err, ms.client.Call "DELETE" ("api/v1/metrics/" ++ fmtD id)
          none none () = (h, resp, err) →
        (ms.Delete id).val = (resp, err)) ∧
      (∀ h resp err, ms.client.Call "DELETE" ("api/v1/metrics/" ++ fmtD id ++ "/points/" ++ fmtD pointID)
          none none () = (h, resp, err) →
        (ms.DeletePoint id pointID).val = (resp, err))) ∧
    ((∀ u h resp err, addOptions "api/v1/components/groups" (.componentGroups fcg) = (u, none) →
        cg.client.Call "GET" u none (some .componentGroupResponse) {} = (h, resp, err) →
        (cg.GetAll addOptions fcg).val = (some h, resp, err)) ∧
      (∀ u h resp err, addOptions "api/v1/metrics/groups" (.metricGroups fmg) = (u, none) →
        mg.client.Call "GET" u none (some .metricGroupResponse) {} = (h, resp, err) →
        (mg.GetAll addOptions fmg).val = (some h, resp, err)) ∧
      (∀ u h resp err, addOptions "api/v1/metrics" (.metrics fms) = (u, none) →
        ms.client.Call "GET" u none (some .metricResponse) {} = (h, resp, err) →
        (ms.GetAll addOptions fms).val = (some h, resp, err))) := by
  refine ⟨⟨?_, ?_, ?_, ?_, ?_, ?_, ?_, ?_, ?_, ?_, ?_⟩, ⟨?_, ?_, ?_, ?_⟩, ⟨?_, ?_, ?_⟩⟩
  · exact fun h resp err hc => val_of_call _ h resp err hc (·.Data)
  · exact fun h resp err hc => val_of_call _ h resp err hc (·.Data)
  · exact fun h resp err hc => val_of_call _ h resp err hc (·.Data)
  · exact fun h resp err hc => val_of_call _ h resp err hc (·.Data)
  · exact fun h resp err hc => val_of_call _ h resp err hc (·.Data)
  · exact fun h resp err hc => val_of_call _ h resp err hc (·.Data)
  · exact fun h resp err hc => val_of_call _ h resp err hc (·.Data)
  · exact fun h resp err hc => val_of_call _ h resp err hc (·.Data)
  · exact fun h resp err hc => val_of_call _ h resp err hc (·.Data)
  · exact fun h resp err hc => val_of_call _ h resp err hc (·.Data)
  · exact fun h resp err hc => val_of_call _ h resp err hc (·.Data)
  · exact fun h resp err hc => val_of_call_nil _ h resp err hc
  · exact fun h resp err hc => val_of_call_nil _ h resp err hc
  · exact fun h resp err hc => val_of_call_nil _ h resp err hc
  · exact fun h resp err hc => val_of_call_nil _ h resp err hc
  · intro u h resp err ha hc
    unfold ComponentGroupsService.GetAll
    simp only []
    rw [ha]
    exact val_of_call _ h resp err hc some
  · intro u h resp err ha hc
    unfold MetricGroupsService.GetAll
    simp only []
    rw [ha]
    exact val_of_call _ h resp err hc some
  · intro u h resp err ha hc
    unfold MetricsService.GetAll
    simp only []
    rw [ha]
    exact val_of_call _ h resp err hc some

/-- Witness of C7: a metric `Get` over a transport that decodes a metric and
fails returns that metric, that metadata and that error; a `Delete` over a
failing transport returns its metadata and error; a `GetAll` whose encoder
succeeds returns the envelope, metadata and error of `Call`. -/
theorem call_outcome_verbatim_witness :
    ((MetricsService.mk decodingFailingClient).Get 7).val =
      (some { ID := 7 }, some 500, some "server error") ∧
    ((MetricsService.mk failingClient).Delete 7).val =
      (some 503, some "service unavailable") ∧
    ((MetricsService.mk failingClient).GetAll plainOptions none).val =
      (some {}, some 503, some "service unavailable") :=
  ⟨(call_outcome_verbatim demoDeps plainOptions ⟨okClient⟩ ⟨okClient⟩ ⟨decodingFailingClient⟩
      none none none 7 1 0 "" none none none).1.2.2.2.2.2.2.1
      { Data := some { ID := 7 } } (some 500) (some "server error") rfl,
   (call_outcome_verbatim demoDeps plainOptions ⟨okClient⟩ ⟨okClient⟩ ⟨failingClient⟩
      none none none 7 1 0 "" none none none).2.1.2.2.1
      () (some 503) (some "service unavailable") rfl,
   (call_outcome_verbatim demoDeps plainOptions ⟨okClient⟩ ⟨okClient⟩ ⟨failingClient⟩
      none none none 7 1 0 "" none none none).2.2.2.2
      "api/v1/metrics" {} (some 503) (some "service unavailable") rfl rfl⟩

/-! ## Theorems: errors and results -/

/-- C1, counterexample: an error can come together with a non-nil result.
Over a transport that fails without touching the holder, `GetAll` returns the
freshly allocated list envelope next to the error; over a transport that
decodes a metric and then reports an error, `Get` returns that metric next to
the error. -/
theorem error_with_result_counterexample :
    ((MetricsService.mk failingClient).GetAll plainOptions none).val =
      (some { Meta := 0, Metrics := [] }, some 503, some "service unavailable") ∧
    ((MetricsService.mk decodingFailingClient).Get 7).val =
      (some { ID := 7 }, some 500, some "server error") :=
  ⟨rfl, rfl⟩

/-- C1, amended: the operations make no check of the error of `Call`.
`GetAll` returns a nil result (and nil metadata) only on an encoder error;
when `Call` is reached and returns an error, `GetAll` returns that error
together with the non-nil list envelope as `Call` left it.  When `Call`
returns an error to `Get`, `Create`, `Update`, `GetPoints` or `AddPoint`,
the operation returns that error together with the data field of the holder
as `Call` left it, so the result is nil exactly when `Call` left that field
unset. -/
theorem result_nil_conditions (E : Deps) (addOptions : AddOptions E)
    (cg : ComponentGroupsService E) (mg : MetricGroupsService E) (ms : MetricsService E)
    (fcg : Option (ComponentGroupsQueryParams E))
    (fmg : Option (MetricGroupsQueryParams E)) (fms : Option (MetricQueryParams E))
    (id value : Int) (timestamp : String)
    (c : Option (ComponentGroup E)) (g : Option MetricGroup) (m : Option Metric) :
    (((∀ e, (addOptions "api/v1/components/groups" (.componentGroups fcg)).2 = some e →
        (cg.GetAll addOptions fcg).val = (none, none, some e)) ∧
      (∀ u h resp e, addOptions "api/v1/components/groups" (.componentGroups fcg) = (u, none) →
        cg.client.Call "GET" u none (some .componentGroupResponse) {} = (h, resp, some e) →
        (cg.GetAll addOptions fcg).val = (some h, resp, some e))) ∧
      ((∀ e, (addOptions "api/v1/metrics/groups" (.metricGroups fmg)).2 = some e →
        (mg.GetAll addOptions fmg).val = (none, none, some e)) ∧
      (∀ u h resp e, addOptions "api/v1/metrics/groups" (.metricGroups fmg) = (u, none) →
        mg.client.Call "GET" u none (some .metricGroupResponse) {} = (h, resp, some e) →
        (mg.GetAll addOptions fmg).val = (some h, resp, some e))) ∧
      ((∀ e, (addOptions "api/v1/metrics" (.metrics fms)).2 = some e →
        (ms.GetAll addOptions fms).val = (none, none, some e)) ∧
      (∀ u h resp e, addOptions "api/v1/metrics" (.metrics fms) = (u, none) →
        ms.client.Call "GET" u none (some .metricResponse) {} = (h, resp, some e) →
        (ms.GetAll addOptions fms).val = (some h, resp, some e)))) ∧
    ((∀ h resp e, cg.client.Call "GET" ("api/v1/components/groups/" ++ fmtD id) none
          (some .componentGroupAPIResponse) {} = (h, resp, some e) →
        (cg.Get id).val = (h.Data, resp, some e) ∧
        (((cg.Get id).val.1 = none) ↔ h.Data = none)) ∧
      (∀ h resp e, cg.client.Call "POST" "api/v1/components/groups" (some (.componentGroup c))
          (some .componentGroupAPIResponse) {} = (h, resp, some e) →
        (cg.Create c).val = (h.Data, resp, some e) ∧
        (((cg.Create c).val.1 = none) ↔ h.Data = none)) ∧
      (∀ h resp e, cg.client.Call "PUT" ("api/v1/components/groups/" ++ fmtD id) (some (.componentGroup c))
          (some .componentGroupAPIResponse) {} = (h, resp, some e) →
        (cg.Update id c).val = (h.Data, resp, some e) ∧
        (((cg.Update id c).val.1 = none) ↔ h.Data = none)) ∧
      (∀ h resp e, mg.client.Call "GET" ("api/v1/metrics/groups/" ++ fmtD id) none
          (some .metricGroupAPIResponse) {} = (h, resp, some e) →
        (mg.Get id).val = (h.Data, resp, some e) ∧
        (((mg.Get id).val.1 = none) ↔ h.Data = none)) ∧
      (∀ h resp e, mg.client.Call "POST" "api/v1/metrics/groups" (some (.metricGroup g))
          (some .metricGroupAPIResponse) {} = (h, resp, some e) →
        (mg.Create g).val = (h.Data, resp, some e) ∧
        (((mg.Create g).val.1 = none) ↔ h.Data = none)) ∧
      (∀ h resp e, mg.client.Call "PUT" ("api/v1/metrics/groups/" ++ fmtD id) (some (.metricGroup g))
          (some .metricGroupAPIResponse) {} = (h, resp, some e) →
        (mg.Update id g).val = (h.Data, resp, some e) ∧
        (((mg.Update id g).val.1 = none) ↔ h.Data = none)) ∧
      (∀ h resp e, ms.client.Call "GET" ("api/v1/metrics/" ++ fmtD id) none
          (some .metricAPIResponse) {} = (h, resp, some e) →
        (ms.Get id).val = (h.Data, resp, some e) ∧
        (((ms.Get id).val.1 = none) ↔ h.Data = none)) ∧
      (∀ h resp e, ms.client.Call "POST" "api/v1/metrics" (some (.metric m))
          (some .metricAPIResponse) {} = (h, resp, some e) →
        (ms.Create m).val = (h.Data, resp, some e) ∧
        (((ms.Create m).val.1 = none) ↔ h.Data = none)) ∧
      (∀ h resp e, ms.client.Call "PUT" ("api/v1/metrics/" ++ fmtD id) (some (.metric m))
          (some .metricAPIResponse) {} = (h, resp, some e) →
        (ms.Update id m).val = (h.Data, resp, some e) ∧
        (((ms.Update id m).val.1 = none) ↔ h.Data = none)) ∧
      (∀ h resp e, ms.client.Call "GET" ("api/v1/metrics/" ++ fmtD id ++ "/points") none
          (some .metricPointsAPIResponse) {} = (h, resp, some e) →
        (ms.GetPoints id).val = (h.Data, resp, some e) ∧
        (((ms.GetPoints id).val.1 = none) ↔ h.Data = none)) ∧
      (∀ h resp e, ms.client.Call "POST" ("api/v1/metrics/" ++ fmtD id ++ "/points")
          (some (.pointPayload ⟨value, timestamp⟩)) (some .metricPointAPIResponse) {} = (h, resp, some e) →
        (ms.AddPoint id value timestamp).val = (h.Data, resp, some e) ∧
        (((ms.AddPoint id value timestamp).val.1 = none) ↔ h.Data = none))) := by
  refine ⟨⟨⟨?_, ?_⟩, ⟨?_, ?_⟩, ⟨?_, ?_⟩⟩, ⟨?_, ?_, ?_, ?_, ?_, ?_, ?_, ?_, ?_, ?_, ?_⟩⟩
  · intro e h
    unfold ComponentGroupsService.GetAll
    simp only []
    rw [h]
    rfl
  · intro u h resp e ha hc
    unfold ComponentGroupsService.GetAll
    simp only []
    rw [ha]
    exact val_of_call _ h resp (some e) hc some
  · intro e h
    unfold MetricGroupsService.GetAll
    simp only []
    rw [h]
    rfl
  · intro u h resp e ha hc
    unfold MetricGroupsService.GetAll
    simp only []
    rw [ha]
    exact val_of_call _ h resp (some e) hc some
  · intro e h
    unfold MetricsService.GetAll
    simp only []
    rw [h]
    rfl
  · intro u h resp e ha hc
    unfold MetricsService.GetAll
    simp only []
    rw [ha]
    exact val_of_call _ h resp (some e) hc some
  all_goals
    intro h resp e hc
    have hv := val_of_call _ h resp (some e) hc (·.Data)
    exact ⟨hv, (congrArg (fun x => x = none) (congrArg Prod.fst hv)).to_iff⟩

/-- Witness of C1 amended: over a failing encoder `GetAll` returns nil; over
a succeeding encoder and a failing transport it returns the envelope next to
the error; `Get` returns the decoded metric next to the error of a transport
that decodes and fails, and nil next to the error of a transport that leaves
the holder alone. -/
theorem result_nil_conditions_witness :
    ((MetricsService.mk failingClient).GetAll brokenOptions none).val =
      (none, none, some "unsupported filter") ∧
    ((MetricsService.mk failingClient).GetAll plainOptions none).val =
      (some {}, some 503, some "service unavailable") ∧
    ((MetricsService.mk decodingFailingClient).Get 7).val =
      (some { ID := 7 }, some 500, some "server error") ∧
    ((((MetricsService.mk failingClient).Get 7).val.1 = none) ↔
      ({} : metricAPIResponse).Data = none) :=
  ⟨(result_nil_conditions demoDeps brokenOptions ⟨okClient⟩ ⟨okClient⟩ ⟨failingClient⟩
      none none none 7 0 "" none none none).1.2.2.1 "unsupported filter" rfl,
   (result_nil_conditions demoDeps plainOptions ⟨okClient⟩ ⟨okClient⟩ ⟨failingClient⟩
      none none none 7 0 "" none none none).1.2.2.2
      "api/v1/metrics" {} (some 503) "service unavailable" rfl rfl,
   ((result_nil_conditions demoDeps plainOptions ⟨okClient⟩ ⟨okClient⟩ ⟨decodingFailingClient⟩
      none none none 7 0 "" none none none).2.2.2.2.2.2.2.1
      { Data := some { ID := 7 } } (some 500) "server error" rfl).1,
   ((result_nil_conditions demoDeps plainOptions ⟨okClient⟩ ⟨okClient⟩ ⟨failingClient⟩
      none none none 7 0 "" none none none).2.2.2.2.2.2.2.1
      {} (some 503) "service unavailable" rfl).2⟩

/-! ## Theorems: the JSON request bodies -/

/-- A member is emitted exactly for a field that is not dropped by
`omitempty`. -/
theorem mem_marshalFields (fs : List Field) (k : String) (v : Value) :
    (k, v) ∈ marshalFields fs ↔
      ∃ f ∈ fs, (f.omitempty && f.value.isEmptyValue) = false ∧ f.key = k ∧ f.value = v := by
  unfold marshalFields
  simp only [List.mem_filterMap]
  constructor
  · rintro ⟨f, hf, h⟩
    by_cases hc : (f.omitempty && f.value.isEmptyValue) = true
    · simp [hc] at h
    · simp only [hc] at h
      simp at h
      exact ⟨f, hf, by simpa using hc, h.1, h.2⟩
  · rintro ⟨f, hf, hc, rfl, rfl⟩
    exact ⟨f, hf, by simp [hc]⟩

/-- A key is emitted exactly for a field that is not dropped by `omitempty`. -/
theorem mem_keysOf_marshalFields (fs : List Field) (k : String) :
    k ∈ keysOf (marshalFields fs) ↔
      ∃ f ∈ fs, (f.omitempty && f.value.isEmptyValue) = false ∧ f.key = k := by
  unfold keysOf
  simp only [List.mem_map, Prod.exists, exists_and_right, exists_eq_right]
  constructor
  · rintro ⟨v, hv⟩
    obtain ⟨f, hf, hc, hk, _⟩ := (mem_marshalFields fs k v).1 hv
    exact ⟨f, hf, hc, hk⟩
  · rintro ⟨f, hf, hc, hk⟩
    exact ⟨f.value, (mem_marshalFields fs k f.value).2 ⟨f, hf, hc, hk, rfl⟩⟩

/-- C3: the JSON body built from any metric has the members default_value,
calc_type, display_chart and visible with the metric's values, and the JSON
body built from any component group has the member collapsed with the
group's value, zero values included. -/
theorem always_serialized_fields (E : Deps) (m : Metric) (g : ComponentGroup E) :
    (∃ obj, (Body.metric (some m) : Body E).toJSON = .obj obj ∧
      ("default_value", .int m.DefaultValue) ∈ obj ∧
      ("calc_type", .int m.CalcType) ∈ obj ∧
      ("display_chart", .bool m.DisplayChart) ∈ obj ∧
      ("visible", .int m.Visible) ∈ obj) ∧
    (∃ obj, (Body.componentGroup (some g)).toJSON = .obj obj ∧
      ("collapsed", .int g.Collapsed) ∈ obj) := by
  refine ⟨⟨_, rfl, ?_, ?_, ?_, ?_⟩, ⟨_, rfl, ?_⟩⟩
  · simp [mem_marshalFields, Metric.fields, Value.isEmptyValue]
  · simp [mem_marshalFields, Metric.fields, Value.isEmptyValue]
  · simp [mem_marshalFields, Metric.fields, Value.isEmptyValue]
  · simp [mem_marshalFields, Metric.fields, Value.isEmptyValue]
  · simp [mem_marshalFields, ComponentGroup.fields, Value.isEmptyValue]

/-- C4, counterexample: the zero metric has DefaultView = 0, and its JSON
body still carries the member default_view: the body has five members, not
four. -/
theorem default_view_serialized_at_zero :
    ({} : Metric).DefaultView = 0 ∧
    (Body.metric (some {}) : Body demoDeps).toJSON =
      .obj [("default_value", .int 0), ("calc_type", .int 0), ("display_chart", .bool false),
        ("default_view", .int 0), ("visible", .int 0)] :=
  ⟨rfl, rfl⟩

/-- C4, amended: the fields of a metric serialized unconditionally are
exactly DefaultValue, CalcType, DisplayChart, DefaultView and Visible; each
of the other eleven fields is in the JSON body exactly when it is not zero. -/
theorem metric_field_presence (E : Deps) (m : Metric) :
    (Body.metric (some m) : Body E).toJSON = .obj (marshalFields m.fields) ∧
    (("default_value", .int m.DefaultValue) ∈ marshalFields m.fields ∧
      ("calc_type", .int m.CalcType) ∈ marshalFields m.fields ∧
      ("display_chart", .bool m.DisplayChart) ∈ marshalFields m.fields ∧
      ("default_view", .int m.DefaultView) ∈ marshalFields m.fields ∧
      ("visible", .int m.Visible) ∈ marshalFields m.fields) ∧
    (("id" ∈ keysOf (marshalFields m.fields) ↔ m.ID ≠ 0) ∧
      ("name" ∈ keysOf (marshalFields m.fields) ↔ m.Name ≠ "") ∧
      ("suffix" ∈ keysOf (marshalFields m.fields) ↔ m.Suffix ≠ "") ∧
      ("description" ∈ keysOf (marshalFields m.fields) ↔ m.Description ≠ "") ∧
      ("places" ∈ keysOf (marshalFields m.fields) ↔ m.Places ≠ 0) ∧
      ("threshold" ∈ keysOf (marshalFields m.fields) ↔ m.Threshold ≠ 0) ∧
      ("order" ∈ keysOf (marshalFields m.fields) ↔ m.Order ≠ 0) ∧
      ("created_at" ∈ keysOf (marshalFields m.fields) ↔ m.CreatedAt ≠ "") ∧
      ("updated_at" ∈ keysOf (marshalFields m.fields) ↔ m.UpdatedAt ≠ "") ∧
      ("default_view_name" ∈ keysOf (marshalFields m.fields) ↔ m.DefaultViewName ≠ "") ∧
      ("group_id" ∈ keysOf (marshalFields m.fields) ↔ m.GroupID ≠ 0)) := by
  refine ⟨rfl, ⟨?_, ?_, ?_, ?_, ?_⟩, ⟨?_, ?_, ?_, ?_, ?_, ?_, ?_, ?_, ?_, ?_, ?_⟩⟩
  · simp [mem_marshalFields, Metric.fields, Value.isEmptyValue]
  · simp [mem_marshalFields, Metric.fields, Value.isEmptyValue]
  · simp [mem_marshalFields, Metric.fields, Value.isEmptyValue]
  · simp [mem_marshalFields, Metric.fields, Value.isEmptyValue]
  · simp [mem_marshalFields, Metric.fields, Value.isEmptyValue]
  all_goals simp [mem_keysOf_marshalFields, Metric.fields, Value.isEmptyValue]

/-- C9: a component group or metric group whose Visible is the logged-in
constant 0 is sent by `Create` and `Update` in a JSON body without a visible
member, so the body of an entity with Visible set to logged-in equals the
body of the same entity built without Visible; the body of a metric carries
visible = 0 in both cases. -/
theorem visible_omitted_when_logged_in (E : Deps)
    (cg : ComponentGroupsService E) (mg : MetricGroupsService E) (id : Int)
    (c : ComponentGroup E) (g : MetricGroup) (m : Metric) :
    (c.Visible = ComponentGroupVisibilityLoggedIn →
      ∀ req ∈ (cg.Create (some c)).calls ++ (cg.Update id (some c)).calls,
        ∃ b obj, req.body = some b ∧ b.toJSON = .obj obj ∧ "visible" ∉ keysOf obj) ∧
    (g.Visible = MetricGroupVisibilityLoggedIn →
      ∀ req ∈ (mg.Create (some g)).calls ++ (mg.Update id (some g)).calls,
        ∃ b obj, req.body = some b ∧ b.toJSON = .obj obj ∧ "visible" ∉ keysOf obj) ∧
    (Body.componentGroup
        (some { c with Visible := ComponentGroupVisibilityLoggedIn })).toJSON =
      (Body.componentGroup (some
        { ID := c.ID, Name := c.Name, Order := c.Order, Collapsed := c.Collapsed,
          CreatedAt := c.CreatedAt, UpdatedAt := c.UpdatedAt,
          EnabledComponents := c.EnabledComponents,
          EnabledComponentsLowest := c.EnabledComponentsLowest,
          LowestHumanStatus := c.LowestHumanStatus })).toJSON ∧
    (Body.metricGroup (some { g with Visible := MetricGroupVisibilityLoggedIn }) :
        Body E).toJSON =
      (Body.metricGroup (some
        { ID := g.ID, Name := g.Name, Order := g.Order, CreatedAt := g.CreatedAt,
          UpdatedAt := g.UpdatedAt }) : Body E).toJSON ∧
    ("visible", Value.int 0) ∈
      marshalFields ({ m with Visible := MetricsVisibilityLoggedIn } : Metric).fields ∧
    ("visible", Value.int 0) ∈
      marshalFields (Metric.fields
        { ID := m.ID, Name := m.Name, Suffix := m.Suffix, Description := m.Description,
          DefaultValue := m.DefaultValue, CalcType := m.CalcType,
          DisplayChart := m.DisplayChart, Places := m.Places, DefaultView := m.DefaultView,
          Threshold := m.Threshold, Order := m.Order, CreatedAt := m.CreatedAt,
          UpdatedAt := m.UpdatedAt, DefaultViewName := m.DefaultViewName,
          GroupID := m.GroupID }) := by
  refine ⟨?_, ?_, rfl, rfl, ?_, ?_⟩
  · intro hv req hreq
    have hreq2 : req ∈ [(⟨"POST", "api/v1/components/groups", some (.componentGroup (some c)),
          some .componentGroupAPIResponse⟩ : Request E),
        ⟨"PUT", "api/v1/components/groups/" ++ fmtD id, some (.componentGroup (some c)),
          some .componentGroupAPIResponse⟩] := hreq
    have hk : "visible" ∉ keysOf (marshalFields c.fields) := by
      simp [mem_keysOf_marshalFields, ComponentGroup.fields, Value.isEmptyValue, hv,
        ComponentGroupVisibilityLoggedIn]
    simp only [List.mem_cons, List.mem_singleton, List.not_mem_nil, or_false] at hreq2
    rcases hreq2 with rfl | rfl
    · exact ⟨_, _, rfl, rfl, hk⟩
    · exact ⟨_, _, rfl, rfl, hk⟩
  · intro hv req hreq
    have hreq2 : req ∈ [(⟨"POST", "api/v1/metrics/groups", some (.metricGroup (some g)),
          some .metricGroupAPIResponse⟩ : Request E),
        ⟨"PUT", "api/v1/metrics/groups/" ++ fmtD id, some (.metricGroup (some g)),
          some .metricGroupAPIResponse⟩] := hreq
    have hk : "visible" ∉ keysOf (marshalFields g.fields) := by
      simp [mem_keysOf_marshalFields, MetricGroup.fields, Value.isEmptyValue, hv,
        MetricGroupVisibilityLoggedIn]
    simp only [List.mem_cons, List.mem_singleton, List.not_mem_nil, or_false] at hreq2
    rcases hreq2 with rfl | rfl
    · exact ⟨_, _, rfl, rfl, hk⟩
    · exact ⟨_, _, rfl, rfl, hk⟩
  · simp [mem_marshalFields, Metric.fields, Value.isEmptyValue, MetricsVisibilityLoggedIn]
  · simp [mem_marshalFields, Metric.fields, Value.isEmptyValue]

/-- Witness of C9: the request `Create` sends for a component group named
"web" with Visible = 0 has a body without a visible member. -/
theorem visible_omitted_when_logged_in_witness :
    ∀ req ∈ ((ComponentGroupsService.mk okClient).Create (some { Name := "web" })).calls ++
        ((ComponentGroupsService.mk okClient).Update 3 (some { Name := "web" })).calls,
      ∃ b obj, req.body = some b ∧ b.toJSON = .obj obj ∧ "visible" ∉ keysOf obj :=
  (visible_omitted_when_logged_in demoDeps ⟨okClient⟩ ⟨okClient⟩ 3
    { Name := "web" } {} {}).1 rfl

/-! ## Theorems: request paths -/

/-- A digit below ten prints as a digit character that denotes it. -/
theorem digitChar_spec :
    ∀ d, d < 10 → (Nat.digitChar d).isDigit = true ∧ (Nat.digitChar d).toNat - 48 = d := by
  decide

/-- With enough fuel, the digit loop of `Nat.repr` puts in front of its
accumulator a non-empty run of digit characters that denotes the number. -/
theorem toDigitsCore_spec (fuel : Nat) :
    ∀ n ds, n < fuel → ∃ pre, Nat.toDigitsCore 10 fuel n ds = pre ++ ds ∧ pre ≠ [] ∧
      (∀ c ∈ pre, c.isDigit = true) ∧ decimalValue pre = n := by
  induction fuel with
  | zero => intro n ds h; omega
  | succ fuel ih =>
    intro n ds h
    have hd := digitChar_spec (n % 10) (Nat.mod_lt _ (by decide))
    by_cases h0 : n / 10 = 0
    · refine ⟨[Nat.digitChar (n % 10)], ?_, by simp, ?_, ?_⟩
      · simp [Nat.toDigitsCore, h0]
      · intro c hc
        simp only [List.mem_singleton] at hc
        rw [hc]; exact hd.1
      · simp only [decimalValue, List.foldl]
        rw [hd.2]; omega
    · obtain ⟨pre, h1, _, h3, h4⟩ := ih (n / 10) (Nat.digitChar (n % 10) :: ds) (by omega)
      refine ⟨pre ++ [Nat.digitChar (n % 10)], ?_, by simp, ?_, ?_⟩
      · simp [Nat.toDigitsCore, h0, h1]
      · intro c hc
        rcases List.mem_append.1 hc with hc | hc
        · exact h3 c hc
        · simp only [List.mem_singleton] at hc
          rw [hc]; exact hd.1
      · unfold decimalValue at h4 ⊢
        rw [List.foldl_append, h4]
        simp only [List.foldl]
        rw [hd.2]; omega

/-- The decimal numeral of a natural number is a non-empty run of digit
characters that denotes the number. -/
theorem repr_spec (n : Nat) :
    ∃ pre, (Nat.repr n).data = pre ∧ pre ≠ [] ∧ (∀ c ∈ pre, c.isDigit = true) ∧
      decimalValue pre = n := by
  obtain ⟨pre, h1, h2, h3, h4⟩ := toDigitsCore_spec (n + 1) n [] (by omega)
  refine ⟨pre, ?_, h2, h3, h4⟩
  simp [Nat.repr, Nat.toDigits, h1, List.asString]

/-- The output of `%d` holds only digits and the minus sign. -/
theorem fmtD_chars (i : Int) : ∀ c ∈ (fmtD i).data, c = '-' ∨ c.isDigit = true := by
  intro c hc
  cases i with
  | ofNat n =>
    obtain ⟨pre, h1, _, h3, _⟩ := repr_spec n
    simp only [fmtD] at hc
    rw [h1] at hc
    exact Or.inr (h3 c hc)
  | negSucc n =>
    obtain ⟨pre, h1, _, h3, _⟩ := repr_spec (n + 1)
    simp only [fmtD, String.data_append] at hc
    rw [h1] at hc
    rcases List.mem_append.1 hc with hc | hc
    · left
      simpa using hc
    · exact Or.inr (h3 c hc)

/-- Different integers print differently under `%d`. -/
theorem fmtD_injective (a b : Int) (h : fmtD a = fmtD b) : a = b := by
  have hd : (fmtD a).data = (fmtD b).data := congrArg String.data h
  cases a with
  | ofNat n =>
    obtain ⟨p, hp1, hp2, hp3, hp4⟩ := repr_spec n
    cases b with
    | ofNat m =>
      obtain ⟨q, hq1, _, _, hq4⟩ := repr_spec m
      simp only [fmtD] at hd
      rw [hp1, hq1] at hd
      subst hd
      rw [← hp4, ← hq4]
    | negSucc m =>
      exfalso
      simp only [fmtD, String.data_append] at hd
      rw [hp1] at hd
      cases p with
      | nil => exact hp2 rfl
      | cons c p =>
        have hc := hp3 c (List.mem_cons_self _ _)
        simp only [List.singleton_append, List.cons.injEq] at hd
        rw [hd.1] at hc
        exact absurd hc (by decide)
  | negSucc n =>
    obtain ⟨p, hp1, _, _, hp4⟩ := repr_spec (n + 1)
    cases b with
    | ofNat m =>
      exfalso
      obtain ⟨q, hq1, hq2, hq3, _⟩ := repr_spec m
      simp only [fmtD, String.data_append] at hd
      rw [hq1] at hd
      cases q with
      | nil => exact hq2 rfl
      | cons c q =>
        have hc := hq3 c (List.mem_cons_self _ _)
        simp only [List.singleton_append, List.cons.injEq] at hd
        rw [← hd.1] at hc
        exact absurd hc (by decide)
    | negSucc m =>
      obtain ⟨q, hq1, _, _, hq4⟩ := repr_spec (m + 1)
      simp only [fmtD, String.data_append] at hd
      rw [hp1, hq1] at hd
      simp only [List.singleton_append, List.cons.injEq, true_and] at hd
      subst hd
      have : n + 1 = m + 1 := by rw [← hp4, ← hq4]
      have : n = m := by omega
      rw [this]

/-- Two lists that agree, each cut at the first occurrence of a separator,
agree on both sides of it. -/
theorem append_cons_split {α : Type} (c : α) :
    ∀ (l1 l2 r1 r2 : List α), c ∉ l1 → c ∉ l2 → l1 ++ c :: r1 = l2 ++ c :: r2 →
      l1 = l2 ∧ r1 = r2 := by
  intro l1
  induction l1 with
  | nil =>
    intro l2 r1 r2 _ h2 h
    cases l2 with
    | nil => simpa using h
    | cons x l2 =>
      simp only [List.nil_append, List.cons_append, List.cons.injEq] at h
      exact absurd (h.1 ▸ List.mem_cons_self _ _) h2
  | cons y l1 ih =>
    intro l2 r1 r2 h1 h2 h
    cases l2 with
    | nil =>
      simp only [List.nil_append, List.cons_append, List.cons.injEq] at h
      exact absurd (h.1 ▸ List.mem_cons_self _ _) h1
    | cons x l2 =>
      simp only [List.cons_append, List.cons.injEq] at h
      obtain ⟨e1, e2⟩ := ih l2 r1 r2 (fun hm => h1 (List.mem_cons_of_mem _ hm))
        (fun hm => h2 (List.mem_cons_of_mem _ hm)) h.2
      exact ⟨by rw [h.1, e1], e2⟩

/-- The output of `%d` has no slash. -/
theorem slash_not_mem_fmtD (i : Int) : '/' ∉ (fmtD i).data := by
  intro h
  rcases fmtD_chars i _ h with h | h
  · exact absurd h (by decide)
  · exact absurd h (by decide)

/-- The output of `%d` has no letter g. -/
theorem g_not_mem_fmtD (i : Int) : 'g' ∉ (fmtD i).data := by
  intro h
  rcases fmtD_chars i _ h with h | h
  · exact absurd h (by decide)
  · exact absurd h (by decide)

/-- A common prefix of two equal strings can be dropped. -/
theorem common_head_cancel (p x y : String) (h : p ++ x = p ++ y) : x = y := by
  have hd := congrArg String.data h
  simp only [String.data_append] at hd
  exact String.ext (List.append_cancel_left hd)

/-- A path made of a fixed prefix and a decimal id determines the id. -/
theorem entity_path_injective (p : String) (a b : Int)
    (h : [p ++ fmtD a] = [p ++ fmtD b]) : a = b := by
  simp only [List.cons.injEq, and_true] at h
  exact fmtD_injective a b (common_head_cancel p _ _ h)

/-- The path of a single point determines the metric id and the point id. -/
theorem point_path_injective (a b a' b' : Int)
    (h : "api/v1/metrics/" ++ fmtD a ++ "/points/" ++ fmtD b =
      "api/v1/metrics/" ++ fmtD a' ++ "/points/" ++ fmtD b') : a = a' ∧ b = b' := by
  have hd := congrArg String.data h
  simp only [String.data_append, List.append_assoc] at hd
  have hd2 := List.append_cancel_left hd
  simp only [List.cons_append, List.nil_append] at hd2
  obtain ⟨h1, h2⟩ := append_cons_split '/' _ _ _ _ (slash_not_mem_fmtD a)
    (slash_not_mem_fmtD a') hd2
  simp only [List.cons.injEq, true_and] at h2
  exact ⟨fmtD_injective a a' (String.ext h1), fmtD_injective b b' (String.ext h2)⟩

/-- No metric path is the metric-group collection path. -/
theorem metric_path_ne_groups (a : Int) :
    "api/v1/metrics/" ++ fmtD a ≠ "api/v1/metrics/groups" := by
  intro h
  have e : "api/v1/metrics/groups" = "api/v1/metrics/" ++ "groups" := by decide
  rw [e] at h
  have h2 := common_head_cancel _ _ _ h
  have hg := g_not_mem_fmtD a
  rw [h2] at hg
  exact hg (by decide)

/-- No metric path is a metric-group entity path. -/
theorem metric_path_ne_group_entity (a b : Int) :
    "api/v1/metrics/" ++ fmtD a ≠ "api/v1/metrics/groups/" ++ fmtD b := by
  intro h
  have e : "api/v1/metrics/groups/" = "api/v1/metrics/" ++ "groups/" := by decide
  rw [e, String.append_assoc] at h
  have h2 := common_head_cancel _ _ _ h
  have hg := g_not_mem_fmtD a
  rw [h2, String.data_append] at hg
  exact hg (List.mem_append_left _ (by decide))

/-- No metric path continues with "/points". -/
theorem metric_path_ne_points (a b : Int) (rest : String) :
    "api/v1/metrics/" ++ fmtD a ≠ "api/v1/metrics/" ++ fmtD b ++ ("/points" ++ rest) := by
  intro h
  rw [String.append_assoc] at h
  have h2 := common_head_cancel _ _ _ h
  have hs := slash_not_mem_fmtD a
  rw [h2, String.data_append, String.data_append] at hs
  exact hs (List.mem_append_right _ (List.mem_append_left _ (by decide)))

/-- C10: request paths identify their target.  The single-entity path of
each of the three resources determines the id; the path of a single point
determines metric id and point id; and for every integer id, negative ones
included, the metric path differs from the metric-group collection path,
from every metric-group entity path and from every points path. -/
theorem paths_identify_target (E : Deps)
    (cg : ComponentGroupsService E) (mg : MetricGroupsService E) (ms : MetricsService E)
    (a b a' b' : Int) (g : Option MetricGroup) :
    ((cg.Get a).calls.map Request.path = (cg.Get b).calls.map Request.path → a = b) ∧
    ((mg.Get a).calls.map Request.path = (mg.Get b).calls.map Request.path → a = b) ∧
    ((ms.Get a).calls.map Request.path = (ms.Get b).calls.map Request.path → a = b) ∧
    ((ms.DeletePoint a b).calls.map Request.path =
        (ms.DeletePoint a' b').calls.map Request.path → a = a' ∧ b = b') ∧
    (ms.Get a).calls.map Request.path ≠ (mg.Create g).calls.map Request.path ∧
    (ms.Get a).calls.map Request.path ≠ (mg.Get b).calls.map Request.path ∧
    (ms.Get a).calls.map Request.path ≠ (ms.GetPoints b).calls.map Request.path ∧
    (ms.Get a).calls.map Request.path ≠ (ms.DeletePoint b b').calls.map Request.path := by
  refine ⟨?_, ?_, ?_, ?_, ?_, ?_, ?_, ?_⟩
  · exact fun h => entity_path_injective "api/v1/components/groups/" a b h
  · exact fun h => entity_path_injective "api/v1/metrics/groups/" a b h
  · exact fun h => entity_path_injective "api/v1/metrics/" a b h
  · intro h
    have h2 : ["api/v1/metrics/" ++ fmtD a ++ "/points/" ++ fmtD b] =
        ["api/v1/metrics/" ++ fmtD a' ++ "/points/" ++ fmtD b'] := h
    simp only [List.cons.injEq, and_true] at h2
    exact point_path_injective a b a' b' h2
  · intro h
    have h2 : ["api/v1/metrics/" ++ fmtD a] = ["api/v1/metrics/groups"] := h
    simp only [List.cons.injEq, and_true] at h2
    exact metric_path_ne_groups a h2
  · intro h
    have h2 : ["api/v1/metrics/" ++ fmtD a] = ["api/v1/metrics/groups/" ++ fmtD b] := h
    simp only [List.cons.injEq, and_true] at h2
    exact metric_path_ne_group_entity a b h2
  · intro h
    have h2 : ["api/v1/metrics/" ++ fmtD a] = ["api/v1/metrics/" ++ fmtD b ++ "/points"] := h
    simp only [List.cons.injEq, and_true] at h2
    exact metric_path_ne_points a b "" h2
  · intro h
    have h2 : ["api/v1/metrics/" ++ fmtD a] =
        ["api/v1/metrics/" ++ fmtD b ++ "/points/" ++ fmtD b'] := h
    simp only [List.cons.injEq, and_true] at h2
    have e : "api/v1/metrics/" ++ fmtD b ++ "/points/" ++ fmtD b' =
        "api/v1/metrics/" ++ fmtD b ++ ("/points" ++ ("/" ++ fmtD b')) := by
      have e1 : "/points/" = "/points" ++ "/" := by decide
      rw [e1, String.append_assoc, String.append_assoc, String.append_assoc,
        String.append_assoc]
    rw [e] at h2
    exact metric_path_ne_points a b _ h2

/-- Witness of C10: two `Get` on the same metric id build the same path, and
the theorem returns the id; likewise for the pair of ids of `DeletePoint`. -/
theorem paths_identify_target_witness :
    (((MetricsService.mk okClient).Get (-5)).calls.map Request.path =
        ((MetricsService.mk okClient).Get (-5)).calls.map Request.path ∧ (-5 : Int) = -5) ∧
    (((MetricsService.mk okClient).DeletePoint 3 4).calls.map Request.path =
        ((MetricsService.mk okClient).DeletePoint 3 4).calls.map Request.path ∧
      ((3 : Int) = 3 ∧ (4 : Int) = 4)) :=
  ⟨⟨rfl, (paths_identify_target demoDeps ⟨okClient⟩ ⟨okClient⟩ ⟨okClient⟩
      (-5) (-5) 0 0 none).2.2.1 rfl⟩,
   ⟨rfl, (paths_identify_target demoDeps ⟨okClient⟩ ⟨okClient⟩ ⟨okClient⟩
      3 4 3 4 none).2.2.2.1 rfl⟩⟩

/-! ## Theorems: the filter structures -/

/-- A non-empty string field of a filter appears among its query parameters
under the key of its tag. -/
theorem mem_queryValues_str (fs : List Field) (k v : String)
    (h : (k, Value.str v) ∈ marshalFields fs) : (k, v) ∈ queryValues fs := by
  unfold queryValues
  exact List.mem_map.2 ⟨(k, Value.str v), h, rfl⟩

/-- C8, counterexample: the metrics filter declares no Name field, and its
query parameters are only those of its query options; and the metric-group
filter declares a field Collapsed that `MetricGroup` does not have. -/
theorem filter_fields_counterexample :
    "Name" ∉ fieldNames (MetricQueryParams.fields
      ({ QueryOptions := [("page", "2")] } : MetricQueryParams demoDeps)) ∧
    MetricQueryParams.values
      ({ QueryOptions := [("page", "2")] } : MetricQueryParams demoDeps) = [("page", "2")] ∧
    "Collapsed" ∈ fieldNames (MetricGroupsQueryParams.fields
      ({ QueryOptions := [] } : MetricGroupsQueryParams demoDeps)) ∧
    "Collapsed" ∉ fieldNames (MetricGroup.fields {}) := by
  refine ⟨?_, rfl, ?_, ?_⟩
  · simp [fieldNames, MetricQueryParams.fields]
  · simp [fieldNames, MetricGroupsQueryParams.fields]
  · simp [fieldNames, MetricGroup.fields]

/-- With a filter that has at least one query parameter, the modelled
`addOptions` appends a question mark and the query string. -/
theorem addOptionsModel_of_ne_nil (E : Deps) (s : String) (opt : Opt E)
    (vs : List (String × String)) (h : opt.values = some vs) (hne : vs ≠ []) :
    addOptionsModel E s opt = (s ++ "?" ++ encodeQuery vs, none) := by
  unfold addOptionsModel
  simp only [h]
  cases vs with
  | nil => exact absurd rfl hne
  | cons v vs => rfl

/-- A query parameter name=value of a list of parameters is one of the items
the query string joins. -/
theorem name_item_mem (vs : List (String × String)) (n : String)
    (h : ("name", n) ∈ vs) : ("name=" ++ queryEscape n) ∈ vs.map encodePair := by
  have e : queryEscape "name" ++ "=" = "name=" := by decide
  refine List.mem_map.2 ⟨("name", n), h, ?_⟩
  unfold encodePair
  rw [e]

/-- C8, amended: the component-group and metric-group filters carry the
fields ID, Name, Order and Visible of their entity, with the same key and
type, next to the shared query options, and `GetAll` with a filter whose Name
is not empty requests the collection path followed by a question mark and a
query string, joined by ampersands, that has the item name= followed by the
encoded name.  Every field the component-group filter declares has the name
and key of a field of the entity, Collapsed being a boolean in the filter and
an integer in the entity.  The metrics filter declares no field of its own:
its query parameters are those of its query options, and `GetAll` requests
the query string of those alone. -/
theorem filter_fields (E : Deps)
    (cg : ComponentGroupsService E) (mg : MetricGroupsService E) (ms : MetricsService E)
    (fcg : ComponentGroupsQueryParams E) (fmg : MetricGroupsQueryParams E)
    (fms : MetricQueryParams E) (c : ComponentGroup E) (g : MetricGroup) :
    ((∀ sig ∈ [("ID", "id", Kind.int), ("Name", "name", Kind.str), ("Order", "order", Kind.int),
          ("Visible", "visible", Kind.int)],
        sig ∈ fieldSigs fcg.fields ∧ sig ∈ fieldSigs c.fields) ∧
      (fcg.Name ≠ "" → ∃ items,
        (cg.GetAll (addOptionsModel E) (some fcg)).calls.map Request.path =
          ["api/v1/components/groups" ++ "?" ++ "&".intercalate items] ∧
        ("name=" ++ queryEscape fcg.Name) ∈ items) ∧
      (∀ f ∈ fcg.fields, ∃ e ∈ c.fields, e.name = f.name ∧ e.key = f.key) ∧
      (("Collapsed", "collapsed", Kind.bool) ∈ fieldSigs fcg.fields ∧
        ("Collapsed", "collapsed", Kind.int) ∈ fieldSigs c.fields)) ∧
    ((∀ sig ∈ [("ID", "id", Kind.int), ("Name", "name", Kind.str), ("Order", "order", Kind.int),
          ("Visible", "visible", Kind.int)],
        sig ∈ fieldSigs fmg.fields ∧ sig ∈ fieldSigs g.fields) ∧
      (fmg.Name ≠ "" → ∃ items,
        (mg.GetAll (addOptionsModel E) (some fmg)).calls.map Request.path =
          ["api/v1/metrics/groups" ++ "?" ++ "&".intercalate items] ∧
        ("name=" ++ queryEscape fmg.Name) ∈ items)) ∧
    (fieldNames fms.fields = [] ∧
      fms.values = E.queryOptionsValues fms.QueryOptions ∧
      (ms.GetAll (addOptionsModel E) (some fms)).calls.map Request.path =
        [if (E.queryOptionsValues fms.QueryOptions).isEmpty then "api/v1/metrics"
          else "api/v1/metrics" ++ "?" ++ encodeQuery (E.queryOptionsValues fms.QueryOptions)])
    := by
  refine ⟨⟨?_, ?_, ?_, ?_⟩, ⟨?_, ?_⟩, ⟨rfl, rfl, ?_⟩⟩
  · simp [fieldSigs, ComponentGroupsQueryParams.fields, ComponentGroup.fields, Value.kind]
  · intro hn
    have hmem : ("name", fcg.Name) ∈ fcg.values := by
      refine List.mem_append_left _ (mem_queryValues_str _ _ _ ?_)
      simp [mem_marshalFields, ComponentGroupsQueryParams.fields, Value.isEmptyValue, hn]
    have ha := addOptionsModel_of_ne_nil E "api/v1/components/groups"
      (.componentGroups (some fcg)) fcg.values rfl (List.ne_nil_of_mem hmem)
    refine ⟨fcg.values.map encodePair, ?_, name_item_mem _ _ hmem⟩
    unfold ComponentGroupsService.GetAll
    simp only []
    rw [ha]
    rfl
  · simp [ComponentGroupsQueryParams.fields, ComponentGroup.fields]
  · simp [fieldSigs, ComponentGroupsQueryParams.fields, ComponentGroup.fields, Value.kind]
  · simp [fieldSigs, MetricGroupsQueryParams.fields, MetricGroup.fields, Value.kind]
  · intro hn
    have hmem : ("name", fmg.Name) ∈ fmg.values := by
      refine List.mem_append_left _ (mem_queryValues_str _ _ _ ?_)
      simp [mem_marshalFields, MetricGroupsQueryParams.fields, Value.isEmptyValue, hn]
    have ha := addOptionsModel_of_ne_nil E "api/v1/metrics/groups"
      (.metricGroups (some fmg)) fmg.values rfl (List.ne_nil_of_mem hmem)
    refine ⟨fmg.values.map encodePair, ?_, name_item_mem _ _ hmem⟩
    unfold MetricGroupsService.GetAll
    simp only []
    rw [ha]
    rfl
  · have hv : (Opt.metrics (some fms)).values = some (E.queryOptionsValues fms.QueryOptions) :=
      rfl
    unfold MetricsService.GetAll
    simp only []
    cases hq : E.queryOptionsValues fms.QueryOptions with
    | nil =>
      have ha : addOptionsModel E "api/v1/metrics" (.metrics (some fms)) =
          ("api/v1/metrics", none) := by
        unfold addOptionsModel
        simp only [hv, hq]
        rfl
      rw [ha]
      rfl
    | cons v vs =>
      have ha := addOptionsModel_of_ne_nil E "api/v1/metrics" (.metrics (some fms))
        (v :: vs) (hv.trans (congrArg some hq)) (List.cons_ne_nil _ _)
      rw [ha]
      rfl

/-- Witness of C8 amended: `GetAll` with a component-group filter named
"web app" on page 2 requests
api/v1/components/groups?name=web+app&page=2, whose query has the item
name=web+app. -/
theorem filter_fields_witness :
    (({ Name := "web app", QueryOptions := [("page", "2")] } :
      ComponentGroupsQueryParams demoDeps).Name ≠ "") ∧
    ((ComponentGroupsService.mk okClient).GetAll (addOptionsModel demoDeps)
        (some { Name := "web app", QueryOptions := [("page", "2")] })).calls.map
          Request.path =
      ["api/v1/components/groups?name=web+app&page=2"] ∧
    (∃ items,
      ((ComponentGroupsService.mk okClient).GetAll (addOptionsModel demoDeps)
        (some { Name := "web app", QueryOptions := [("page", "2")] })).calls.map
          Request.path =
        ["api/v1/components/groups" ++ "?" ++ "&".intercalate items] ∧
      ("name=" ++ queryEscape "web app") ∈ items) :=
  ⟨by decide, rfl,
   (filter_fields demoDeps ⟨okClient⟩ ⟨okClient⟩ ⟨okClient⟩
      { Name := "web app", QueryOptions := [("page", "2")] } { QueryOptions := [] }
      { QueryOptions := [] } {} {}).1.2.1 (by decide)⟩

end Cachet
